import Mathlib

/-!
Verification of the `unstructured-client` crate's typed protocol boundary, as a
shallow embedding of `src/crates/unstructured-client/src/{metadata,element,partition,client,error}.rs`.

JSON values are modelled by the inductive `Json` below; JSON numbers are modelled
at integer precision (no claim under consideration depends on non-integral numeric
values).  Deserialization of the `serde`-derived types is embedded following
serde's documented semantics for the attribute combinations the source uses:
derived structs read their named fields from a JSON object and silently ignore
unknown keys; `Option` fields treat an absent key and an explicit `null` both as
`None`; `#[serde(flatten)]` hands the keys not consumed by the outer struct to the
flattened struct; `#[serde(tag = "filetype")]` (internal tagging) consumes the tag
key and deserializes the variant payload from the remaining keys; and
`#[serde(untagged)]` tries the variants in declaration order.
-/

namespace Unstructured

/-- A JSON value (`serde_json::Value`), with numbers at integer precision. -/
inductive Json where
  | null
  | bool (b : Bool)
  | num (n : Int)
  | str (s : String)
  | arr (elems : List Json)
  | obj (fields : List (String × Json))

/-- First-occurrence lookup of a key in a JSON object's field list. -/
def Json.lookupField : List (String × Json) → String → Option Json
  | [], _ => none
  | (k, v) :: rest, key => if k = key then some v else Json.lookupField rest key

/-- Remove every binding of a key from a JSON object's field list (used to model
the consumption of fields by an outer deserializer before the remaining fields
are handed to a `#[serde(flatten)]` member, and of the `filetype` tag by the
internally tagged `ExtendedMetadata` deserializer). -/
def Json.eraseField : List (String × Json) → String → List (String × Json)
  | [], _ => []
  | (k, v) :: rest, key =>
    if k = key then Json.eraseField rest key else (k, v) :: Json.eraseField rest key

/-- Deserialize a JSON value as a Rust `String`. -/
def decodeString : Json → Option String
  | .str s => some s
  | _ => none

/-- Deserialize a JSON value as a Rust `bool`. -/
def decodeBool : Json → Option Bool
  | .bool b => some b
  | _ => none

/-- Deserialize a JSON value as a Rust `u32` (an integer in `[0, 2^32)`). -/
def decodeU32 : Json → Option Nat
  | .num n => if 0 ≤ n ∧ n < 4294967296 then some n.toNat else none
  | _ => none

/-- Deserialize a JSON value as a Rust `f64`; every JSON number is accepted
(numbers are modelled at integer precision). -/
def decodeF64 : Json → Option Int
  | .num n => some n
  | _ => none

/-- Deserialize a JSON sequence element by element (`Vec<T>` deserialization);
fails as soon as one element fails. -/
def decodeList (f : Json → Option α) : List Json → Option (List α)
  | [] => some []
  | x :: xs =>
    match f x with
    | some y => (decodeList f xs).map (y :: ·)
    | none => none

/-- Deserialize a JSON value as a Rust `Vec<String>`. -/
def decodeStringList : Json → Option (List String)
  | .arr xs => decodeList decodeString xs
  | _ => none

/-- Deserialize a JSON value as a Rust `Vec<f64>`. -/
def decodeF64List : Json → Option (List Int)
  | .arr xs => decodeList decodeF64 xs
  | _ => none

/-- serde's handling of an `Option<T>` struct field: an absent key and an
explicit `null` both give `None`; any other value must deserialize as `T`. -/
def decodeOptField (fs : List (String × Json)) (key : String) (dec : Json → Option α) :
    Option (Option α) :=
  match Json.lookupField fs key with
  | none => some none
  | some .null => some none
  | some v => (dec v).map some

/-- `CommonMetadata` (metadata.rs lines 5-58): the fields shared by the metadata
of every file type.  All fields are `Option`al. -/
structure CommonMetadata where
  filename : Option String
  file_directory : Option String
  last_modified : Option String
  filetype : Option String
  coordinates : Option String
  parent_id : Option String
  category_depth : Option Nat
  text_as_html : Option String
  languages : Option (List String)
  emphasized_text_contents : Option String
  emphasized_text_tags : Option String
  is_continuation : Option Bool
  detection_class_prob : Option (List Int)
deriving DecidableEq, Repr

/-- The all-`None` `CommonMetadata` produced by the derived `Default` impl. -/
def CommonMetadata.default : CommonMetadata where
  filename := none
  file_directory := none
  last_modified := none
  filetype := none
  coordinates := none
  parent_id := none
  category_depth := none
  text_as_html := none
  languages := none
  emphasized_text_contents := none
  emphasized_text_tags := none
  is_continuation := none
  detection_class_prob := none

/-- Derived deserialization of `CommonMetadata` from the field list of a JSON
object: each named field is read with serde's `Option` semantics and every
unrecognized key is silently ignored. -/
def CommonMetadata.decodeFields (fs : List (String × Json)) : Option CommonMetadata := do
  let filename ← decodeOptField fs "filename" decodeString
  let file_directory ← decodeOptField fs "file_directory" decodeString
  let last_modified ← decodeOptField fs "last_modified" decodeString
  let filetype ← decodeOptField fs "filetype" decodeString
  let coordinates ← decodeOptField fs "coordinates" decodeString
  let parent_id ← decodeOptField fs "parent_id" decodeString
  let category_depth ← decodeOptField fs "category_depth" decodeU32
  let text_as_html ← decodeOptField fs "text_as_html" decodeString
  let languages ← decodeOptField fs "languages" decodeStringList
  let emphasized_text_contents ← decodeOptField fs "emphasized_text_contents" decodeString
  let emphasized_text_tags ← decodeOptField fs "emphasized_text_tags" decodeString
  let is_continuation ← decodeOptField fs "is_continuation" decodeBool
  let detection_class_prob ← decodeOptField fs "detection_class_prob" decodeF64List
  pure {
    filename, file_directory, last_modified, filetype, coordinates, parent_id,
    category_depth, text_as_html, languages, emphasized_text_contents,
    emphasized_text_tags, is_continuation, detection_class_prob }

/-- Deserialization of `CommonMetadata` from a JSON value (it must be an object). -/
def CommonMetadata.decode : Json → Option CommonMetadata
  | .obj fs => CommonMetadata.decodeFields fs
  | _ => none

/-- `PagedDocument` (metadata.rs): metadata for DOCX, PDF, PPT document types. -/
structure PagedDocument where
  common : CommonMetadata
  page_number : Option Nat
deriving DecidableEq, Repr

/-- Deserialization of `PagedDocument` from an object's field list: `page_number`
is read by the outer struct, the remaining fields go to the
`#[serde(flatten)]`-ed `CommonMetadata`. -/
def PagedDocument.decodeFields (fs : List (String × Json)) : Option PagedDocument := do
  let page_number ← decodeOptField fs "page_number" decodeU32
  let common ← CommonMetadata.decodeFields (Json.eraseField fs "page_number")
  pure { common, page_number }

/-- `ExcelMetadata` (metadata.rs): metadata for the XLSX document type. -/
structure ExcelMetadata where
  common : CommonMetadata
  page_number : Option Nat
  page_name : Option String
deriving DecidableEq, Repr

/-- Deserialization of `ExcelMetadata` from an object's field list. -/
def ExcelMetadata.decodeFields (fs : List (String × Json)) : Option ExcelMetadata := do
  let page_number ← decodeOptField fs "page_number" decodeU32
  let page_name ← decodeOptField fs "page_name" decodeString
  let common ← CommonMetadata.decodeFields
    (Json.eraseField (Json.eraseField fs "page_number") "page_name")
  pure { common, page_number, page_name }

/-- `EmailMetadata` (metadata.rs): metadata for the EML document type. -/
structure EmailMetadata where
  common : CommonMetadata
  sent_from : Option String
  sent_to : Option String
  subject : Option String
deriving DecidableEq, Repr

/-- Deserialization of `EmailMetadata` from an object's field list. -/
def EmailMetadata.decodeFields (fs : List (String × Json)) : Option EmailMetadata := do
  let sent_from ← decodeOptField fs "sent_from" decodeString
  let sent_to ← decodeOptField fs "sent_to" decodeString
  let subject ← decodeOptField fs "subject" decodeString
  let common ← CommonMetadata.decodeFields
    (Json.eraseField (Json.eraseField (Json.eraseField fs "sent_from") "sent_to") "subject")
  pure { common, sent_from, sent_to, subject }

/-- `MsgMetadata` (metadata.rs): metadata for the MSG document type. -/
structure MsgMetadata where
  common : CommonMetadata
  attached_to_filename : Option String
deriving DecidableEq, Repr

/-- Deserialization of `MsgMetadata` from an object's field list. -/
def MsgMetadata.decodeFields (fs : List (String × Json)) : Option MsgMetadata := do
  let attached_to_filename ← decodeOptField fs "attached_to_filename" decodeString
  let common ← CommonMetadata.decodeFields (Json.eraseField fs "attached_to_filename")
  pure { common, attached_to_filename }

/-- `WordDocMetadata` (metadata.rs): metadata for legacy Word documents. -/
structure WordDocMetadata where
  common : CommonMetadata
  page_number : Option Nat
  header_footer_type : Option String
deriving DecidableEq, Repr

/-- Deserialization of `WordDocMetadata` from an object's field list. -/
def WordDocMetadata.decodeFields (fs : List (String × Json)) : Option WordDocMetadata := do
  let page_number ← decodeOptField fs "page_number" decodeU32
  let header_footer_type ← decodeOptField fs "header_footer_type" decodeString
  let common ← CommonMetadata.decodeFields
    (Json.eraseField (Json.eraseField fs "page_number") "header_footer_type")
  pure { common, page_number, header_footer_type }

/-- `HtmlMetadata` (metadata.rs): metadata for the HTML document type. -/
structure HtmlMetadata where
  common : CommonMetadata
  link_urls : Option (List String)
  link_texts : Option (List String)
deriving DecidableEq, Repr

/-- Deserialization of `HtmlMetadata` from an object's field list. -/
def HtmlMetadata.decodeFields (fs : List (String × Json)) : Option HtmlMetadata := do
  let link_urls ← decodeOptField fs "link_urls" decodeStringList
  let link_texts ← decodeOptField fs "link_texts" decodeStringList
  let common ← CommonMetadata.decodeFields
    (Json.eraseField (Json.eraseField fs "link_urls") "link_texts")
  pure { common, link_urls, link_texts }

/-- `EpubMetadata` (metadata.rs): metadata for the EPUB document type. -/
structure EpubMetadata where
  common : CommonMetadata
  section' : Option String
deriving DecidableEq, Repr

/-- Deserialization of `EpubMetadata` from an object's field list (the Rust
field is named `section`; `section'` here because `section` is a Lean keyword). -/
def EpubMetadata.decodeFields (fs : List (String × Json)) : Option EpubMetadata := do
  let section' ← decodeOptField fs "section" decodeString
  let common ← CommonMetadata.decodeFields (Json.eraseField fs "section")
  pure { common, section' }

/-- `ExtendedMetadata` (metadata.rs lines 146-185): the internally tagged
(`#[serde(tag = "filetype")]`) enum of known-format metadata variants. -/
inductive ExtendedMetadata where
  | PdfPage (m : PagedDocument)
  | DocxPage (m : PagedDocument)
  | PptPage (m : PagedDocument)
  | XlsxPage (m : ExcelMetadata)
  | Eml (m : EmailMetadata)
  | Msg (m : MsgMetadata)
  | WordDoc (m : WordDocMetadata)
  | Html (m : HtmlMetadata)
  | Epub (m : EpubMetadata)
deriving DecidableEq, Repr

/-- The strings accepted as the `filetype` tag of `ExtendedMetadata`: the nine
`#[serde(rename = ...)]` tokens plus the two `#[serde(alias = ...)]`es of the
spreadsheet variant. -/
def knownFiletypeTokens : List String :=
  ["application/pdf",
   "application/vnd.openxmlformats-officedocument.wordprocessingml.document",
   "application/vnd.openxmlformats-officedocument.presentationml.presentation",
   "application/vnd.openxmlformats-officedocument.spreadsheetml.sheet",
   "sheet",
   "excel",
   "message/rfc822",
   "application/vnd.ms-outlook",
   "application/msword",
   "text/html",
   "application/epub+zip"]

/-- Deserialization of the internally tagged `ExtendedMetadata`: the value must
be an object whose `filetype` key holds one of the known tokens; the tag pair is
consumed and the variant payload is deserialized from the remaining fields. -/
def ExtendedMetadata.decode : Json → Option ExtendedMetadata
  | .obj fs =>
    match Json.lookupField fs "filetype" with
    | some (.str tag) =>
      let rest := Json.eraseField fs "filetype"
      if tag = "application/pdf" then
        (PagedDocument.decodeFields rest).map .PdfPage
      else if tag = "application/vnd.openxmlformats-officedocument.wordprocessingml.document" then
        (PagedDocument.decodeFields rest).map .DocxPage
      else if tag = "application/vnd.openxmlformats-officedocument.presentationml.presentation" then
        (PagedDocument.decodeFields rest).map .PptPage
      else if tag = "application/vnd.openxmlformats-officedocument.spreadsheetml.sheet"
          ∨ tag = "sheet" ∨ tag = "excel" then
        (ExcelMetadata.decodeFields rest).map .XlsxPage
      else if tag = "message/rfc822" then
        (EmailMetadata.decodeFields rest).map .Eml
      else if tag = "application/vnd.ms-outlook" then
        (MsgMetadata.decodeFields rest).map .Msg
      else if tag = "application/msword" then
        (WordDocMetadata.decodeFields rest).map .WordDoc
      else if tag = "text/html" then
        (HtmlMetadata.decodeFields rest).map .Html
      else if tag = "application/epub+zip" then
        (EpubMetadata.decodeFields rest).map .Epub
      else none
    | _ => none
  | _ => none

/-- `Metadata` (metadata.rs lines 187-192): the untagged union of a known-format
variant and the `CommonMetadata`-only fallback. -/
inductive Metadata where
  | KnownFormat (m : ExtendedMetadata)
  | UnknownFormat (m : CommonMetadata)
deriving DecidableEq, Repr

/-- Deserialization of the `#[serde(untagged)]` enum `Metadata`: try the
variants in declaration order — `KnownFormat` first, then `UnknownFormat`. -/
def Metadata.decode (j : Json) : Option Metadata :=
  match ExtendedMetadata.decode j with
  | some e => some (.KnownFormat e)
  | none => (CommonMetadata.decode j).map .UnknownFormat

/-- `Metadata::into_common_metadata` (metadata.rs lines 194-211): project any
metadata value to its `CommonMetadata` subset. -/
def Metadata.into_common_metadata : Metadata → CommonMetadata
  | .KnownFormat ext_metadata =>
    match ext_metadata with
    | .PdfPage m => m.common
    | .DocxPage m => m.common
    | .PptPage m => m.common
    | .XlsxPage m => m.common
    | .Eml m => m.common
    | .Msg m => m.common
    | .WordDoc m => m.common
    | .Html m => m.common
    | .Epub m => m.common
  | .UnknownFormat metadata => metadata

/-- `impl From<Metadata> for CommonMetadata` (metadata.rs lines 213-217). -/
def CommonMetadata.from (value : Metadata) : CommonMetadata :=
  value.into_common_metadata

/-- `ElementType` (element.rs): the fixed vocabulary of element type tags. -/
inductive ElementType where
  | Formula
  | FigureCaption
  | NarrativeText
  | ListItem
  | Title
  | Address
  | EmailAddress
  | Image
  | PageBreak
  | Table
  | Header
  | Footer
  | CodeSnippet
  | PageNumber
  | UncategorizedText
  | CompositeElement
deriving DecidableEq, Repr

/-- Deserialization of the externally tagged unit-variant enum `ElementType`:
a JSON string equal to one of the variant names. -/
def ElementType.decode : Json → Option ElementType
  | .str s =>
    if s = "Formula" then some .Formula
    else if s = "FigureCaption" then some .FigureCaption
    else if s = "NarrativeText" then some .NarrativeText
    else if s = "ListItem" then some .ListItem
    else if s = "Title" then some .Title
    else if s = "Address" then some .Address
    else if s = "EmailAddress" then some .EmailAddress
    else if s = "Image" then some .Image
    else if s = "PageBreak" then some .PageBreak
    else if s = "Table" then some .Table
    else if s = "Header" then some .Header
    else if s = "Footer" then some .Footer
    else if s = "CodeSnippet" then some .CodeSnippet
    else if s = "PageNumber" then some .PageNumber
    else if s = "UncategorizedText" then some .UncategorizedText
    else if s = "CompositeElement" then some .CompositeElement
    else none
  | _ => none

/-- `Element` (element.rs lines 57-62): one extracted unit of document content. -/
structure Element where
  type : ElementType
  element_id : String
  text : String
  metadata : Option Metadata
deriving DecidableEq, Repr

/-- Derived deserialization of `Element` from a JSON value: it must be an object;
`type`, `element_id` and `text` are required, `metadata` is `Option`al (absent
and `null` both give `None`). -/
def Element.decode : Json → Option Element
  | .obj fs =>
    match Json.lookupField fs "type" with
    | some tv =>
      match ElementType.decode tv with
      | some ty =>
        match Json.lookupField fs "element_id" with
        | some (.str eid) =>
          match Json.lookupField fs "text" with
          | some (.str txt) =>
            match decodeOptField fs "metadata" Metadata.decode with
            | some md => some { type := ty, element_id := eid, text := txt, metadata := md }
            | none => none
          | _ => none
        | _ => none
      | none => none
    | none => none
  | _ => none

/-- `ElementList` (element.rs line 64): deserialization of `Vec<Element>` —
the value must be a JSON array each of whose items deserializes as an `Element`. -/
def ElementList.decode : Json → Option (List Element)
  | .arr xs => decodeList Element.decode xs
  | _ => none

/-- Modelled from the spec: the `PartitionResponse` type is referenced from
client.rs and the CLI `main.rs` but its definition is not under `src/`.  Per the
spec (§3 PartitionResult, §4.2) it is the untagged union, tried in declaration
order, of `Success` (an ordered sequence of `Element`) and `Failure` (an
arbitrary JSON value). -/
inductive PartitionResponse where
  | Success (elements : List Element)
  | Failure (payload : Json)

/-- Deserialization of the untagged `PartitionResponse`: try the element-list
shape first; the fallback `Failure` arm wraps any JSON value, so it never fails
on valid JSON. -/
def PartitionResponse.decode (j : Json) : PartitionResponse :=
  match ElementList.decode j with
  | some es => .Success es
  | none => .Failure j

/-- `ClientError` (error.rs): the crate's error taxonomy.  Note there is no
`MalformedBody` variant; `reqwest` errors — both transport failures and response
body decode failures — are wrapped by `RequestFailed` via `#[from]`. -/
inductive ClientError where
  | RequestFailed (msg : String)
  | URLParseFailed (msg : String)
  | ExtractionFailed (msg : String)
  | MetadataFieldNotPresent (msg : String)
  | Unauthorized (msg : String)
  | ServiceUnavailable (msg : String)
  | FileIOError (msg : String)
  | Timeout
  | UnexpectedResponse (msg : String)
  | Io (msg : String)
  | Other (msg : String)
deriving DecidableEq, Repr

/-- The response-body handling of `partition_file` (client.rs lines 132-135):
the raw body is given as the result of JSON parsing (`none` when the body is not
valid JSON, in which case `response.json().await?` surfaces the `reqwest` decode
error as `ClientError::RequestFailed`); a parsed JSON value always decodes into
one of the two `PartitionResponse` arms. -/
def decodeResponseBody : Option Json → Except ClientError PartitionResponse
  | none => .error (.RequestFailed "error decoding response body")
  | some j => .ok (PartitionResponse.decode j)

/-- A well-formed element object in the sense of the response contract: a JSON
object whose `type` is one of the `ElementType` tokens, whose `element_id` and
`text` are strings, and whose `metadata` is absent, `null`, or a valid
`Metadata` value. -/
def wellFormedElementObj : Json → Bool
  | .obj fs =>
    (match Json.lookupField fs "type" with
     | some tv => (ElementType.decode tv).isSome
     | none => false)
    && (match Json.lookupField fs "element_id" with
        | some (.str _) => true
        | _ => false)
    && (match Json.lookupField fs "text" with
        | some (.str _) => true
        | _ => false)
    && (match Json.lookupField fs "metadata" with
        | none => true
        | some .null => true
        | some mv => (Metadata.decode mv).isSome)
  | _ => false

/-- `PartitionParameters` (partition.rs lines 4-50).  The `i32` fields are
modelled as `Int` (no claim exercises 32-bit overflow); `similarity_threshold`
is an `f64` modelled as `Rat` — it is never stringified by the encoder, so its
carrier does not affect any wire field. -/
structure PartitionParameters where
  coordinates : Bool
  encoding : Option String
  extract_image_block_types : List String
  gz_uncompressed_content_type : Option String
  hi_res_model_name : Option String
  include_page_breaks : Bool
  languages : List String
  output_format : String
  skip_infer_table_types : List String
  starting_page_number : Option Int
  strategy : String
  unique_element_ids : Bool
  xml_keep_tags : Bool
  chunking_strategy : Option String
  combine_under_n_chars : Option Int
  include_orig_elements : Bool
  max_characters : Option Int
  multipage_sections : Bool
  new_after_n_chars : Option Int
  overlap : Int
  overlap_all : Bool
  similarity_threshold : Option Rat

/-- `impl Default for PartitionParameters` (partition.rs lines 52-79). -/
def PartitionParameters.default : PartitionParameters where
  coordinates := false
  encoding := some "utf-8"
  extract_image_block_types := []
  gz_uncompressed_content_type := none
  hi_res_model_name := none
  include_page_breaks := false
  languages := []
  output_format := "application/json"
  skip_infer_table_types := []
  starting_page_number := none
  strategy := "auto"
  unique_element_ids := false
  xml_keep_tags := false
  chunking_strategy := none
  combine_under_n_chars := some 500
  include_orig_elements := true
  max_characters := some 500
  multipage_sections := true
  new_after_n_chars := some 1500
  overlap := 0
  overlap_all := false
  similarity_threshold := none

/-- Rust's `bool::to_string`. -/
def boolString (b : Bool) : String :=
  if b then "true" else "false"

/-- One hexadecimal digit, lowercase (as used by serde_json's string escapes). -/
def hexDigit (n : Nat) : String :=
  if n = 0 then "0" else if n = 1 then "1" else if n = 2 then "2"
  else if n = 3 then "3" else if n = 4 then "4" else if n = 5 then "5"
  else if n = 6 then "6" else if n = 7 then "7" else if n = 8 then "8"
  else if n = 9 then "9" else if n = 10 then "a" else if n = 11 then "b"
  else if n = 12 then "c" else if n = 13 then "d" else if n = 14 then "e"
  else "f"

/-- serde_json's escaping of one character inside a JSON string literal:
`"` and `\` are backslash-escaped, the control characters below 0x20 use the
short escapes or `\u00XX`, everything else is emitted as itself. -/
def escapeJsonChar (c : Char) : String :=
  if c = '"' then "\\\""
  else if c = '\\' then "\\\\"
  else if c = '\x08' then "\\b"
  else if c = '\x09' then "\\t"
  else if c = '\x0a' then "\\n"
  else if c = '\x0c' then "\\f"
  else if c = '\x0d' then "\\r"
  else if c.toNat < 32 then "\\u00" ++ hexDigit (c.toNat / 16) ++ hexDigit (c.toNat % 16)
  else String.singleton c

/-- serde_json's serialization of a Rust `String` as a JSON string literal.
Total: every string is escapable. -/
def jsonEncodeString (s : String) : String :=
  "\"" ++ String.join ((s.toList).map escapeJsonChar) ++ "\""

/-- `serde_json::to_string` on a `Vec<String>` (the three list fields of the
form encoder): a compact JSON array literal.  Total: it cannot fail, which is
why the `.unwrap()` calls in partition.rs lines 94, 110 and 115 cannot panic. -/
def jsonEncodeStringList (xs : List String) : String :=
  "[" ++ String.intercalate "," (xs.map jsonEncodeString) ++ "]"

/-- `impl From<PartitionParameters> for Form` (partition.rs lines 81-148): the
ordered sequence of text form fields.  Every field is emitted unconditionally;
absent `Option` values are replaced by their `Default` (empty string for
strings, `0` for integers) before stringification.  `similarity_threshold` is
not emitted at all. -/
def PartitionParameters.toForm (value : PartitionParameters) : List (String × String) :=
  [("coordinates", boolString value.coordinates),
   ("encoding", value.encoding.getD "utf-8"),
   ("extract_image_block_types", jsonEncodeStringList value.extract_image_block_types),
   ("gz_uncompressed_content_type", value.gz_uncompressed_content_type.getD ""),
   ("hi_res_model_name", value.hi_res_model_name.getD ""),
   ("include_page_breaks", boolString value.include_page_breaks),
   ("languages", jsonEncodeStringList value.languages),
   ("output_format", value.output_format),
   ("skip_infer_table_types", jsonEncodeStringList value.skip_infer_table_types),
   ("starting_page_number", toString (value.starting_page_number.getD 0)),
   ("strategy", value.strategy),
   ("unique_element_ids", boolString value.unique_element_ids),
   ("xml_keep_tags", boolString value.xml_keep_tags),
   ("chunking_strategy", value.chunking_strategy.getD ""),
   ("combine_under_n_chars", toString (value.combine_under_n_chars.getD 0)),
   ("include_orig_elements", boolString value.include_orig_elements),
   ("max_characters", toString (value.max_characters.getD 0)),
   ("multipage_sections", boolString value.multipage_sections),
   ("new_after_n_chars", toString (value.new_after_n_chars.getD 0)),
   ("overlap", toString value.overlap),
   ("overlap_all", boolString value.overlap_all)]

/-- First-occurrence lookup of a field name in a wire form. -/
def formGet : List (String × String) → String → Option String
  | [], _ => none
  | (k, v) :: rest, key => if k = key then some v else formGet rest key

/-- A UTF-8 continuation byte (`0x80..=0xBF`). -/
def isCont (b : Nat) : Bool :=
  128 ≤ b ∧ b ≤ 191

/-- Validity of a byte sequence as UTF-8, as checked by `OsStr::to_str` /
`str::from_utf8`: ASCII bytes stand alone; lead bytes `0xC2..=0xDF`,
`0xE0..=0xEF` and `0xF0..=0xF4` start 2-, 3- and 4-byte sequences with the
standard restrictions on the first continuation byte (no overlongs, no
surrogates, nothing above `U+10FFFF`). -/
def utf8Valid : List Nat → Bool
  | [] => true
  | b :: rest =>
    if b < 128 then utf8Valid rest
    else if 194 ≤ b ∧ b ≤ 223 then
      match rest with
      | c1 :: rest2 => isCont c1 && utf8Valid rest2
      | [] => false
    else if b = 224 then
      match rest with
      | c1 :: c2 :: rest2 => (160 ≤ c1 && c1 ≤ 191) && isCont c2 && utf8Valid rest2
      | _ => false
    else if (225 ≤ b ∧ b ≤ 236) ∨ b = 238 ∨ b = 239 then
      match rest with
      | c1 :: c2 :: rest2 => isCont c1 && isCont c2 && utf8Valid rest2
      | _ => false
    else if b = 237 then
      match rest with
      | c1 :: c2 :: rest2 => (128 ≤ c1 && c1 ≤ 159) && isCont c2 && utf8Valid rest2
      | _ => false
    else if b = 240 then
      match rest with
      | c1 :: c2 :: c3 :: rest2 =>
        (144 ≤ c1 && c1 ≤ 191) && isCont c2 && isCont c3 && utf8Valid rest2
      | _ => false
    else if 241 ≤ b ∧ b ≤ 243 then
      match rest with
      | c1 :: c2 :: c3 :: rest2 => isCont c1 && isCont c2 && isCont c3 && utf8Valid rest2
      | _ => false
    else if b = 244 then
      match rest with
      | c1 :: c2 :: c3 :: rest2 =>
        (128 ≤ c1 && c1 ≤ 143) && isCont c2 && isCont c3 && utf8Valid rest2
      | _ => false
    else false

/-- A filesystem path (`std::path::Path`), reduced to what `partition_file`
reads from it: its final component (`Path::file_name`, `none` for paths such as
`/` or `..` that have no final component), kept as raw OS bytes since it need
not be valid UTF-8. -/
structure FsPath where
  file_name : Option (List Nat)

/-- `Path::file_name().ok_or(...)?.to_str().ok_or(...)?` (client.rs lines
98-103): the base name is required to exist and to be valid UTF-8; either
failure is a local `ClientError::FileIOError`. -/
def FsPath.fileNameUtf8 (p : FsPath) : Except ClientError (List Nat) :=
  match p.file_name with
  | none => .error (.FileIOError "No filename found.")
  | some bs =>
    if utf8Valid bs then .ok bs
    else .error (.FileIOError "File name not valid UTF-8")

/-- `UnstructuredClient` (client.rs lines 15-20).  The `reqwest::Client` field
is third-party state whose internals this crate never inspects; it is modelled
as an opaque handle. -/
structure UnstructuredClient where
  client : Nat
  base_url : String
  api_key : Option String

/-- `reqwest::Url::parse` is third-party code outside this repository; no claim
under consideration depends on URL syntax, so it is modelled as accepting every
string.  The error arm is kept so that `new` retains the source's shape. -/
def Url.parse (s : String) : Except String String :=
  .ok s

/-- `UnstructuredClient::new` (client.rs lines 41-48): parse the base URL,
construct a fresh `reqwest::Client`, and leave the API key unset. -/
def UnstructuredClient.new (base_url : String) : Except ClientError UnstructuredClient :=
  match Url.parse base_url with
  | .error e => .error (.URLParseFailed e)
  | .ok url => .ok { client := 0, base_url := url, api_key := none }

/-- `UnstructuredClient::with_api_key` (client.rs lines 62-67): a copy of the
client with the API key set, all other fields taken from `self`. -/
def UnstructuredClient.with_api_key (self : UnstructuredClient) (api_key : String) :
    UnstructuredClient :=
  { self with api_key := some api_key }

/-- The sub-route for partitioning (client.rs line 13). -/
def API_ROUTE : String := "/general/v0/general"

/-- The crate version baked into the `User-Agent` header (client.rs line 10);
the concrete value comes from Cargo metadata not under `src/` and no claim
depends on it. -/
def VERSION : String := "0.1.0"

/-- The one binary part of the multipart form: part filename (raw bytes of the
source file's base name) and file content. -/
structure FilePart where
  part_file_name : List Nat
  bytes : List Nat
deriving DecidableEq, Repr

/-- The outbound HTTP request assembled by `partition_file` before it is handed
to `reqwest`: target URL, text form fields, the binary file part keyed by its
part name, and the headers. -/
structure PartitionRequest where
  url : String
  form : List (String × String)
  file_part : Option (String × FilePart)
  headers : List (String × String)

/-- The local (pre-network) phase of `UnstructuredClient::partition_file`
(client.rs lines 84-129): join the API route onto the base URL (`Url::join`,
third-party, modelled as concatenation), extract the base name (failing with a
local `FileIOError` when missing or not valid UTF-8), build the form from the
parameters, attach the file bytes as the part named `"files"`, and add the
`unstructured-api-key` header only when an API key is set.  `fs::read`'s I/O is
outside the model: the bytes it produced are an argument. -/
def UnstructuredClient.partitionFileRequest (self : UnstructuredClient) (file_path : FsPath)
    (file : List Nat) (params : PartitionParameters) :
    Except ClientError PartitionRequest :=
  let url := self.base_url ++ API_ROUTE
  match file_path.fileNameUtf8 with
  | .error e => .error e
  | .ok file_name =>
    let form := params.toForm
    let base_headers :=
      [("Content-Type", "multipart/form-data"),
       ("User-Agent", "Unstructured-Rust-Client/" ++ VERSION)]
    let headers :=
      match self.api_key with
      | none => base_headers
      | some api_key => base_headers ++ [("unstructured-api-key", api_key)]
    .ok { url := url
          form := form
          file_part := some ("files", { part_file_name := file_name, bytes := file })
          headers := headers }

/-- C3: for each of the nine known `filetype` tokens — `application/pdf`, the
two OOXML document tokens, the OOXML spreadsheet token including its aliases
`sheet` and `excel`, `message/rfc822`, `application/vnd.ms-outlook`,
`application/msword`, `text/html`, `application/epub+zip` — decoding a metadata
object containing only that `filetype` and no other fields produces the
matching `KnownFormat` variant with every optional field `None`/empty. -/
theorem c3_discriminator_totality :
    Metadata.decode (.obj [("filetype", .str "application/pdf")])
      = some (.KnownFormat (.PdfPage { common := CommonMetadata.default, page_number := none }))
  ∧ Metadata.decode (.obj [("filetype",
        .str "application/vnd.openxmlformats-officedocument.wordprocessingml.document")])
      = some (.KnownFormat (.DocxPage { common := CommonMetadata.default, page_number := none }))
  ∧ Metadata.decode (.obj [("filetype",
        .str "application/vnd.openxmlformats-officedocument.presentationml.presentation")])
      = some (.KnownFormat (.PptPage { common := CommonMetadata.default, page_number := none }))
  ∧ Metadata.decode (.obj [("filetype",
        .str "application/vnd.openxmlformats-officedocument.spreadsheetml.sheet")])
      = some (.KnownFormat (.XlsxPage
          { common := CommonMetadata.default, page_number := none, page_name := none }))
  ∧ Metadata.decode (.obj [("filetype", .str "sheet")])
      = some (.KnownFormat (.XlsxPage
          { common := CommonMetadata.default, page_number := none, page_name := none }))
  ∧ Metadata.decode (.obj [("filetype", .str "excel")])
      = some (.KnownFormat (.XlsxPage
          { common := CommonMetadata.default, page_number := none, page_name := none }))
  ∧ Metadata.decode (.obj [("filetype", .str "message/rfc822")])
      = some (.KnownFormat (.Eml
          { common := CommonMetadata.default, sent_from := none, sent_to := none,
            subject := none }))
  ∧ Metadata.decode (.obj [("filetype", .str "application/vnd.ms-outlook")])
      = some (.KnownFormat (.Msg
          { common := CommonMetadata.default, attached_to_filename := none }))
  ∧ Metadata.decode (.obj [("filetype", .str "application/msword")])
      = some (.KnownFormat (.WordDoc
          { common := CommonMetadata.default, page_number := none,
            header_footer_type := none }))
  ∧ Metadata.decode (.obj [("filetype", .str "text/html")])
      = some (.KnownFormat (.Html
          { common := CommonMetadata.default, link_urls := none, link_texts := none }))
  ∧ Metadata.decode (.obj [("filetype", .str "application/epub+zip")])
      = some (.KnownFormat (.Epub { common := CommonMetadata.default, section' := none })) :=
  ⟨rfl, rfl, rfl, rfl, rfl, rfl, rfl, rfl, rfl, rfl, rfl⟩

/-- C7: `into_common_metadata` is total over `Metadata`: on each of the nine
`KnownFormat` variants it returns exactly the embedded `CommonMetadata` base,
on `UnknownFormat` it is the identity on the held `CommonMetadata`, and the
`From<Metadata> for CommonMetadata` conversion agrees with it everywhere. -/
theorem c7_into_common_metadata (pd₁ pd₂ pd₃ : PagedDocument) (xm : ExcelMetadata)
    (em : EmailMetadata) (mm : MsgMetadata) (wm : WordDocMetadata) (hm : HtmlMetadata)
    (epm : EpubMetadata) (cm : CommonMetadata) (m : Metadata) :
    (Metadata.KnownFormat (.PdfPage pd₁)).into_common_metadata = pd₁.common
  ∧ (Metadata.KnownFormat (.DocxPage pd₂)).into_common_metadata = pd₂.common
  ∧ (Metadata.KnownFormat (.PptPage pd₃)).into_common_metadata = pd₃.common
  ∧ (Metadata.KnownFormat (.XlsxPage xm)).into_common_metadata = xm.common
  ∧ (Metadata.KnownFormat (.Eml em)).into_common_metadata = em.common
  ∧ (Metadata.KnownFormat (.Msg mm)).into_common_metadata = mm.common
  ∧ (Metadata.KnownFormat (.WordDoc wm)).into_common_metadata = wm.common
  ∧ (Metadata.KnownFormat (.Html hm)).into_common_metadata = hm.common
  ∧ (Metadata.KnownFormat (.Epub epm)).into_common_metadata = epm.common
  ∧ (Metadata.UnknownFormat cm).into_common_metadata = cm
  ∧ CommonMetadata.from m = m.into_common_metadata :=
  ⟨rfl, rfl, rfl, rfl, rfl, rfl, rfl, rfl, rfl, rfl, rfl⟩

/-- C4: the encoder applies one absent-value policy to all four optional
integer fields — the legacy policy: when `starting_page_number`,
`combine_under_n_chars`, `max_characters` or `new_after_n_chars` is absent, the
corresponding wire field is emitted as the string `"0"` (never a mix of
policies). -/
theorem c4_integer_optionals_consistent_zero (p : PartitionParameters) :
    (p.starting_page_number = none → formGet p.toForm "starting_page_number" = some "0")
  ∧ (p.combine_under_n_chars = none → formGet p.toForm "combine_under_n_chars" = some "0")
  ∧ (p.max_characters = none → formGet p.toForm "max_characters" = some "0")
  ∧ (p.new_after_n_chars = none → formGet p.toForm "new_after_n_chars" = some "0") := by
  refine ⟨fun h => ?_, fun h => ?_, fun h => ?_, fun h => ?_⟩ <;>
    · simp [PartitionParameters.toForm, formGet, h]
      rfl

/-- Witness for C4 at a concrete configuration with all four integer optionals
absent: each of the four wire fields carries `"0"`. -/
theorem c4_witness :
    formGet { PartitionParameters.default with
        starting_page_number := none, combine_under_n_chars := none,
        max_characters := none, new_after_n_chars := none }.toForm "starting_page_number"
      = some "0"
  ∧ formGet { PartitionParameters.default with
        starting_page_number := none, combine_under_n_chars := none,
        max_characters := none, new_after_n_chars := none }.toForm "combine_under_n_chars"
      = some "0"
  ∧ formGet { PartitionParameters.default with
        starting_page_number := none, combine_under_n_chars := none,
        max_characters := none, new_after_n_chars := none }.toForm "max_characters"
      = some "0"
  ∧ formGet { PartitionParameters.default with
        starting_page_number := none, combine_under_n_chars := none,
        max_characters := none, new_after_n_chars := none }.toForm "new_after_n_chars"
      = some "0" := by
  have h := c4_integer_optionals_consistent_zero
    { PartitionParameters.default with
      starting_page_number := none, combine_under_n_chars := none,
      max_characters := none, new_after_n_chars := none }
  exact ⟨h.1 rfl, h.2.1 rfl, h.2.2.1 rfl, h.2.2.2 rfl⟩

/-- Counterexample to C5 as stated: in the default configuration
`chunking_strategy` is absent, yet the wire form does contain a
`chunking_strategy` field (with the empty string as its value) rather than
omitting it. -/
theorem c5_counterexample :
    PartitionParameters.default.chunking_strategy = none
  ∧ formGet PartitionParameters.default.toForm "chunking_strategy" = some "" :=
  ⟨rfl, rfl⟩

/-- C5 (amended): for every configuration the wire form always contains a
`chunking_strategy` field — carrying the empty string when the strategy is
absent, and the bare (not JSON-quoted) strategy token when it is present. -/
theorem c5_chunking_strategy_encoding (p : PartitionParameters) :
    (p.chunking_strategy = none → formGet p.toForm "chunking_strategy" = some "")
  ∧ (∀ s, p.chunking_strategy = some s → formGet p.toForm "chunking_strategy" = some s) := by
  refine ⟨fun h => ?_, fun s h => ?_⟩ <;> simp [PartitionParameters.toForm, formGet, h]

/-- Witness for C5 (amended) at concrete configurations: absent strategy gives
the empty-string field, `by_title` gives the bare token. -/
theorem c5_witness :
    formGet PartitionParameters.default.toForm "chunking_strategy" = some ""
  ∧ formGet { PartitionParameters.default with
        chunking_strategy := some "by_title" }.toForm "chunking_strategy" = some "by_title" :=
  ⟨(c5_chunking_strategy_encoding PartitionParameters.default).1 rfl,
   (c5_chunking_strategy_encoding
      { PartitionParameters.default with chunking_strategy := some "by_title" }).2
     "by_title" rfl⟩

/-- Counterexample to C6 as stated: a configuration whose
`similarity_threshold` is present still produces a wire form with no
`similarity_threshold` field. -/
theorem c6_counterexample :
    ({ PartitionParameters.default with
        similarity_threshold := some 1 } : PartitionParameters).similarity_threshold.isSome = true
  ∧ formGet { PartitionParameters.default with
        similarity_threshold := some 1 }.toForm "similarity_threshold" = none := by
  constructor
  · rfl
  · simp [PartitionParameters.toForm, formGet]

/-- C6 (amended): the wire form never contains a `similarity_threshold` field;
the encoder ignores the parameter entirely, whether absent or present. -/
theorem c6_similarity_threshold_never_emitted (p : PartitionParameters) :
    formGet p.toForm "similarity_threshold" = none := by
  simp [PartitionParameters.toForm, formGet]

/-- C9: `partition_file` fails with a local file error — `FileIOError`, never a
network error — when the path has no base name or the base name is not valid
UTF-8; when the name is representable, the file is attached as the binary part
named `"files"` whose part filename equals the source file's base name. -/
theorem c9_filename_handling (c : UnstructuredClient) (path : FsPath) (file : List Nat)
    (params : PartitionParameters) :
    (path.file_name = none →
      c.partitionFileRequest path file params
        = .error (.FileIOError "No filename found."))
  ∧ (∀ bs, path.file_name = some bs → utf8Valid bs = false →
      c.partitionFileRequest path file params
        = .error (.FileIOError "File name not valid UTF-8"))
  ∧ (∀ bs, path.file_name = some bs → utf8Valid bs = true →
      ∃ req, c.partitionFileRequest path file params = .ok req
        ∧ req.file_part = some ("files", { part_file_name := bs, bytes := file })) := by
  refine ⟨fun h => ?_, fun bs h hv => ?_, fun bs h hv => ?_⟩
  · simp [UnstructuredClient.partitionFileRequest, FsPath.fileNameUtf8, h]
  · simp [UnstructuredClient.partitionFileRequest, FsPath.fileNameUtf8, h, hv]
  · simp only [UnstructuredClient.partitionFileRequest, FsPath.fileNameUtf8, h, hv, if_pos]
    exact ⟨_, rfl, rfl⟩

/-- C10: `with_api_key` changes only the stored credential — the result has
`api_key` set to the given key and the `base_url` and underlying HTTP client
fields unchanged; a client freshly constructed by `new` has `api_key` unset,
and with no key set `partition_file` attaches no credential header. -/
theorem c10_with_api_key_frame (c : UnstructuredClient) (k s : String) :
    (c.with_api_key k).api_key = some k
  ∧ (c.with_api_key k).base_url = c.base_url
  ∧ (c.with_api_key k).client = c.client
  ∧ (∀ c₀, UnstructuredClient.new s = .ok c₀ → c₀.api_key = none)
  ∧ (c.api_key = none → ∀ path file params req,
      c.partitionFileRequest path file params = .ok req →
      req.headers = [("Content-Type", "multipart/form-data"),
                     ("User-Agent", "Unstructured-Rust-Client/" ++ VERSION)]) := by
  refine ⟨rfl, rfl, rfl, fun c₀ h => ?_, fun hk path file params req h => ?_⟩
  · simp only [UnstructuredClient.new, Url.parse, Except.ok.injEq] at h
    rw [← h]
  · cases hf : path.fileNameUtf8 with
    | error e =>
      simp [UnstructuredClient.partitionFileRequest, hf] at h
    | ok fn =>
      simp only [UnstructuredClient.partitionFileRequest, hf, hk, Except.ok.injEq] at h
      rw [← h]

/-- C8: the request encoder is a total, deterministic, pure function from
configurations to wire forms: for every configuration — arbitrary strings in
the list fields included — it produces the full 21-field form, and the JSON
serialization of the three list fields always succeeds, yielding exactly the
JSON-array-encoded string of each list. -/
theorem c8_encoder_total (p : PartitionParameters) :
    p.toForm.map Prod.fst =
      ["coordinates", "encoding", "extract_image_block_types", "gz_uncompressed_content_type",
       "hi_res_model_name", "include_page_breaks", "languages", "output_format",
       "skip_infer_table_types", "starting_page_number", "strategy", "unique_element_ids",
       "xml_keep_tags", "chunking_strategy", "combine_under_n_chars", "include_orig_elements",
       "max_characters", "multipage_sections", "new_after_n_chars", "overlap", "overlap_all"]
  ∧ formGet p.toForm "extract_image_block_types"
      = some (jsonEncodeStringList p.extract_image_block_types)
  ∧ formGet p.toForm "languages" = some (jsonEncodeStringList p.languages)
  ∧ formGet p.toForm "skip_infer_table_types"
      = some (jsonEncodeStringList p.skip_infer_table_types) := by
  refine ⟨?_, ?_, ?_, ?_⟩ <;> simp [PartitionParameters.toForm, formGet]

/-- Witness for C9 at concrete inputs: a path with no base name fails with the
local file error, and a path whose base name is the valid UTF-8 `"t.txt"`
(bytes 116 46 116 120 116) yields a request whose `"files"` part carries that
base name. -/
theorem c9_witness :
    ({ client := 0, base_url := "http://localhost", api_key := none } :
        UnstructuredClient).partitionFileRequest
      { file_name := none } [1, 2] PartitionParameters.default
      = .error (.FileIOError "No filename found.")
  ∧ ∃ req,
      ({ client := 0, base_url := "http://localhost", api_key := none } :
          UnstructuredClient).partitionFileRequest
        { file_name := some [116, 46, 116, 120, 116] } [1, 2] PartitionParameters.default
        = .ok req
      ∧ req.file_part
          = some ("files", { part_file_name := [116, 46, 116, 120, 116], bytes := [1, 2] }) :=
  ⟨(c9_filename_handling { client := 0, base_url := "http://localhost", api_key := none }
      { file_name := none } [1, 2] PartitionParameters.default).1 rfl,
   (c9_filename_handling { client := 0, base_url := "http://localhost", api_key := none }
      { file_name := some [116, 46, 116, 120, 116] } [1, 2] PartitionParameters.default).2.2
     [116, 46, 116, 120, 116] rfl rfl⟩

/-- Witness for C10 at concrete inputs: setting the key on a concrete client
changes exactly the credential, a freshly `new`-constructed client has no key,
and a keyless client's request carries only the two base headers. -/
theorem c10_witness :
    (({ client := 0, base_url := "http://localhost", api_key := none } :
        UnstructuredClient).with_api_key "KEY").api_key = some "KEY"
  ∧ (({ client := 0, base_url := "http://localhost", api_key := none } :
        UnstructuredClient).with_api_key "KEY").base_url = "http://localhost"
  ∧ (({ client := 0, base_url := "http://localhost", api_key := none } :
        UnstructuredClient).with_api_key "KEY").client = 0
  ∧ ({ client := 0, base_url := "http://localhost", api_key := none } :
        UnstructuredClient).api_key = none
  ∧ (match ({ client := 0, base_url := "http://localhost", api_key := none } :
        UnstructuredClient).partitionFileRequest
        { file_name := some [116] } [1] PartitionParameters.default with
      | .ok req => req.headers = [("Content-Type", "multipart/form-data"),
          ("User-Agent", "Unstructured-Rust-Client/" ++ VERSION)]
      | .error _ => False) := by
  have h := c10_with_api_key_frame
    { client := 0, base_url := "http://localhost", api_key := none } "KEY" "http://localhost"
  have hnew : ({ client := 0, base_url := "http://localhost", api_key := none } :
      UnstructuredClient).api_key = none :=
    h.2.2.2.1 { client := 0, base_url := "http://localhost", api_key := none } rfl
  refine ⟨h.1, h.2.1, h.2.2.1, hnew, ?_⟩
  exact h.2.2.2.2 rfl { file_name := some [116] } [1] PartitionParameters.default _ rfl


/-- When the `filetype` key is absent, or holds a string that is none of the
known tokens, the internally tagged `ExtendedMetadata` deserializer fails
(so the untagged `Metadata` union falls through to `UnknownFormat`). -/
theorem extendedMetadata_decode_eq_none_of_unknown (fs : List (String × Json))
    (hft : Json.lookupField fs "filetype" = none ∨
      ∃ t, Json.lookupField fs "filetype" = some (.str t) ∧ t ∉ knownFiletypeTokens) :
    ExtendedMetadata.decode (.obj fs) = none := by
  rcases hft with h | ⟨t, h, hmem⟩
  · simp [ExtendedMetadata.decode, h]
  · simp only [knownFiletypeTokens, List.mem_cons, List.mem_singleton, not_or,
      List.not_mem_nil, or_false] at hmem
    obtain ⟨h1, h2, h3, h4, h5, h6, h7, h8, h9, h10, h11⟩ := hmem
    simp [ExtendedMetadata.decode, h, h1, h2, h3, h4, h5, h6, h7, h8, h9, h10, h11]

/-- Counterexample to C2 as stated: this metadata object's `filetype` is the
unknown string `"asdfasdfasdf"`, yet decoding is an error, not `UnknownFormat` —
its recognized field `category_depth` holds a string where a `u32` is required,
so the `CommonMetadata` fallback fails too. -/
theorem c2_counterexample :
    (Json.lookupField [("filetype", Json.str "asdfasdfasdf"),
        ("category_depth", Json.str "boom")] "filetype" = some (Json.str "asdfasdfasdf")
      ∧ "asdfasdfasdf" ∉ knownFiletypeTokens)
  ∧ Metadata.decode (.obj [("filetype", Json.str "asdfasdfasdf"),
      ("category_depth", Json.str "boom")]) = none := by
  refine ⟨⟨rfl, by simp [knownFiletypeTokens]⟩, rfl⟩

/-- C2 (amended): for every JSON metadata object whose `filetype` field is
absent or holds a string other than the known MIME-type tokens and aliases, and
whose recognized `CommonMetadata`-shaped fields are themselves well-typed (the
`CommonMetadata` field reader succeeds), decoding the metadata succeeds and
produces the `UnknownFormat` variant holding exactly those fields — unrecognized
extra fields are ignored by the field reader, never a decode error. -/
theorem c2_unknown_filetype_fallback (fs : List (String × Json)) (c : CommonMetadata)
    (hft : Json.lookupField fs "filetype" = none ∨
      ∃ t, Json.lookupField fs "filetype" = some (.str t) ∧ t ∉ knownFiletypeTokens)
    (hc : CommonMetadata.decodeFields fs = some c) :
    Metadata.decode (.obj fs) = some (.UnknownFormat c) := by
  have hext := extendedMetadata_decode_eq_none_of_unknown fs hft
  simp [Metadata.decode, hext, CommonMetadata.decode, hc]

/-- Witness for C2 (amended) at a concrete object with an unknown `filetype`,
one recognized field and one unrecognized extra field: decoding succeeds with
`UnknownFormat` carrying the recognized fields. -/
theorem c2_witness :
    Metadata.decode (.obj [("filetype", .str "asdfasdfasdf"),
        ("filename", .str "example.pdf"), ("totally_unknown_key", .num 7)])
      = some (.UnknownFormat { CommonMetadata.default with
          filename := some "example.pdf", filetype := some "asdfasdfasdf" }) :=
  c2_unknown_filetype_fallback
    [("filetype", .str "asdfasdfasdf"), ("filename", .str "example.pdf"),
     ("totally_unknown_key", .num 7)]
    { CommonMetadata.default with
      filename := some "example.pdf", filetype := some "asdfasdfasdf" }
    (Or.inr ⟨"asdfasdfasdf", rfl, by simp [knownFiletypeTokens]⟩) rfl

/-- `Element` deserialization succeeds exactly on well-formed element objects. -/
theorem element_decode_isSome (j : Json) :
    (Element.decode j).isSome = wellFormedElementObj j := by
  cases j with
  | null => rfl
  | bool b => rfl
  | num n => rfl
  | str s => rfl
  | arr xs => rfl
  | obj fs =>
    simp only [Element.decode, wellFormedElementObj]
    cases h1 : Json.lookupField fs "type" with
    | none => simp
    | some tv =>
      cases h2 : ElementType.decode tv with
      | none => simp [h2]
      | some ty =>
        simp only [h2, Option.isSome_some, Bool.true_and]
        cases h3 : Json.lookupField fs "element_id" with
        | none => simp
        | some ev =>
          cases ev <;> try simp
          cases h4 : Json.lookupField fs "text" with
          | none => simp
          | some xv =>
            cases xv <;> try simp
            simp only [decodeOptField]
            cases h5 : Json.lookupField fs "metadata" with
            | none => simp
            | some mv =>
              cases mv <;> try simp
              all_goals (cases h6 : Metadata.decode _ <;> simp [h6])

/-- A JSON array decodes as an element list exactly when every item is a
well-formed element object. -/
theorem decodeList_element_isSome (xs : List Json) :
    (decodeList Element.decode xs).isSome = xs.all wellFormedElementObj := by
  induction xs with
  | nil => rfl
  | cons x xs ih =>
    simp only [decodeList, List.all_cons, ← element_decode_isSome, ← ih]
    cases Element.decode x with
    | none => simp
    | some y => cases decodeList Element.decode xs <;> simp

/-- Counterexample to C1 as stated: at the concrete input "body that is not
valid JSON", decoding surfaces `ClientError::RequestFailed` — the transport
error kind, via the `#[from] reqwest::Error` wrapper — not a `MalformedBody`
error: `ClientError` (error.rs) declares no `MalformedBody` kind at all, while
the claim (with spec §7) posits a decode-layer error kind distinct from
`RequestFailed`. -/
theorem c1_counterexample :
    decodeResponseBody none
      = Except.error (ClientError.RequestFailed "error decoding response body") := rfl

/-- C1 (amended): a response body that is a JSON array of well-formed element
objects decodes as the `Success` arm; a body that is any other valid JSON value
decodes as the `Failure` arm wrapping that value; a body that is not valid JSON
at all yields an error — surfaced as `ClientError::RequestFailed` wrapping the
decode failure, there being no separate `MalformedBody` kind — rather than a
third `PartitionResponse` arm. -/
theorem c1_shape_discrimination (j : Json) :
    (∀ xs, j = Json.arr xs → xs.all wellFormedElementObj = true →
      ∃ es, PartitionResponse.decode j = .Success es)
  ∧ ((∀ xs, j = Json.arr xs → xs.all wellFormedElementObj = false) →
      PartitionResponse.decode j = .Failure j)
  ∧ decodeResponseBody none
      = Except.error (ClientError.RequestFailed "error decoding response body") := by
  refine ⟨fun xs hj hwf => ?_, fun hno => ?_, rfl⟩
  · subst hj
    have hs : (ElementList.decode (Json.arr xs)).isSome = true := by
      simpa [ElementList.decode, decodeList_element_isSome] using hwf
    obtain ⟨es, hes⟩ := Option.isSome_iff_exists.mp hs
    exact ⟨es, by simp [PartitionResponse.decode, hes]⟩
  · cases j with
    | arr xs =>
      have hall := hno xs rfl
      have hn : ElementList.decode (Json.arr xs) = none := by
        have hdl := decodeList_element_isSome xs
        rw [hall] at hdl
        rw [ElementList.decode]
        exact Option.not_isSome_iff_eq_none.mp (by simp [hdl])
      simp [PartitionResponse.decode, hn]
    | null => rfl
    | bool b => rfl
    | num n => rfl
    | str s => rfl
    | obj fs => rfl

/-- Witness for C1 (amended) at concrete bodies: the spec §8 example array
decodes as `Success`, and an error-object body decodes as `Failure` wrapping
it. -/
theorem c1_witness :
    (∃ es, PartitionResponse.decode (Json.arr [Json.obj [("type", Json.str "NarrativeText"),
        ("element_id", Json.str "1"), ("text", Json.str "Hello"), ("metadata", Json.null)]])
      = .Success es)
  ∧ PartitionResponse.decode (Json.obj [("error", Json.str "File type None is not supported.")])
      = .Failure (Json.obj [("error", Json.str "File type None is not supported.")]) :=
  ⟨(c1_shape_discrimination _).1 _ rfl rfl,
   (c1_shape_discrimination _).2.1 (fun _ h => nomatch h)⟩

end Unstructured
